import Mathlib

/-
  Verification development for the intelligent-attendance-hub repository.

  Shallow embedding of:
  - the attendance check-in / check-out handlers (src/pages/Attendance.tsx),
  - the reporting aggregations (src/pages/Reports.tsx, src/pages/Dashboard.tsx),
  - the admin role-change handler (src/pages/AdminUsers.tsx),
  - the AI gateway edge function (supabase/functions/attendance-ai/index.ts),
  - the client chat stream consumer (AIAssistant.sendMessage).

  Machine integers of the source are modelled as Nat and Int (timestamps are
  milliseconds since the epoch, well within the exactly-representable range of
  JS doubles, so Int arithmetic is exact). JS floating division composed with
  Math.floor on such integers is Int.fdiv; the JS remainder operator is the
  truncated remainder Int.tmod. Fractional arithmetic (attendance rates) is
  modelled in Rat, where JS double rounding does not affect any value used in
  a theorem below.
-/

set_option maxRecDepth 8000

namespace AttendanceHub

/-- The attendance_status SQL enum: present, absent, late, half_day, leave. -/
inductive Status where
  | present
  | absent
  | late
  | half_day
  | leave
deriving DecidableEq, Repr

/-- A calendar date as stored in the date column (yyyy-mm-dd). -/
structure CalDate where
  year : Nat
  month : Nat
  day : Nat
deriving DecidableEq, Repr

/-- One row of the attendance table as the pages read it. Timestamps are
milliseconds since the epoch. -/
structure AttendanceRecord where
  id : Nat
  date : CalDate
  status : Status
  check_in : Option Int
  check_out : Option Int
  notes : Option String
deriving DecidableEq, Repr

namespace Attendance

/-- The late cutoff hour of handleCheckIn (Attendance.tsx line 72: a 9 AM
cutoff; comment on line 70 names it). -/
def LATE_CUTOFF_HOUR : Nat := 9

/-- Status decision of handleCheckIn (Attendance.tsx lines 71 to 72):
hour at or above 9 gives late, anything earlier gives present. -/
def checkInStatus (hour : Nat) : Status :=
  if hour ≥ LATE_CUTOFF_HOUR then Status.late else Status.present

/-- The row inserted by handleCheckIn (Attendance.tsx lines 74 to 84):
check_in is the current time, check_out is null, status is decided by
checkInStatus from the local hour of day. -/
def checkInRecord (id : Nat) (date : CalDate) (hour : Nat) (nowMs : Int)
    (notes : Option String) : AttendanceRecord :=
  { id := id
    date := date
    status := checkInStatus hour
    check_in := some nowMs
    check_out := none
    notes := notes }

/-- Outcome of handleCheckOut (Attendance.tsx lines 104 to 138). The handler
either returns early without touching the store (when todayAttendance is
null) or updates the row. No error outcome exists in the handler itself. -/
inductive CheckOutResult where
  | noOp
  | updated (r : AttendanceRecord)
deriving DecidableEq, Repr

/-- handleCheckOut (Attendance.tsx lines 104 to 138): with no record for
today it returns immediately (line 105); otherwise it updates the row with
check_out set to the current time and the notes field replaced,
unconditionally on the previous value of check_out (lines 112 to 120). -/
def handleCheckOut (todayAttendance : Option AttendanceRecord) (nowMs : Int)
    (notes : Option String) : CheckOutResult :=
  match todayAttendance with
  | none => CheckOutResult.noOp
  | some r => CheckOutResult.updated { r with check_out := some nowMs, notes := notes }

/-- calculateWorkHours (Attendance.tsx lines 151 to 159): null unless both
timestamps are present; otherwise Math.floor of the millisecond delta over
3600000 gives hours and Math.floor of the JS remainder over 60000 gives
minutes. Math.floor of a JS float division of exact integers is Int.fdiv and
the JS remainder operator is Int.tmod. -/
def calculateWorkHours (check_in check_out : Option Int) : Option (Int × Int) :=
  match check_in, check_out with
  | some ci, some co =>
    let diffMs : Int := co - ci
    some (Int.fdiv diffMs 3600000, Int.fdiv (Int.tmod diffMs 3600000) 60000)
  | _, _ => none

end Attendance

namespace Dashboard

/-- The attendance rate of fetchDashboardData (Dashboard.tsx lines 59 to 63):
(presentDays + lateDays) / totalDays * 100, and 0 when totalDays is 0. -/
def attendanceRate (monthData : List AttendanceRecord) : ℚ :=
  let presentDays := (monthData.filter (fun a => a.status == Status.present)).length
  let lateDays := (monthData.filter (fun a => a.status == Status.late)).length
  let totalDays := monthData.length
  if totalDays > 0 then (((presentDays : ℚ) + (lateDays : ℚ)) / (totalDays : ℚ)) * 100 else 0

end Dashboard

namespace Reports

/-- One entry of the stats object (Reports.tsx lines 85 to 91): the number of
records whose status equals the given one. -/
def countStatus (attendance : List AttendanceRecord) (s : Status) : Nat :=
  (attendance.filter (fun a => a.status == s)).length

/-- Rounding of Number.prototype.toFixed(1) (Reports.tsx line 117), modelled
as ideal decimal rounding to one fractional digit (round half up); exact for
every value a theorem below evaluates it on. -/
def toFixed1 (x : ℚ) : ℚ := ((⌊x * 10 + 1 / 2⌋ : ℤ) : ℚ) / 10

/-- attendanceRate (Reports.tsx lines 116 to 117): the exact rate
(present + late) / totalDays * 100 passed through toFixed(1) when
totalDays is positive, and the number 0 otherwise. -/
def attendanceRate (attendance : List AttendanceRecord) : ℚ :=
  let totalDays := attendance.length
  if totalDays > 0 then
    toFixed1 ((((countStatus attendance Status.present : ℚ)
      + (countStatus attendance Status.late : ℚ)) / (totalDays : ℚ)) * 100)
  else 0

/-- Per-week counters of the weeklyData accumulator (Reports.tsx line 103). -/
structure WeekCounts where
  present : Nat
  late : Nat
  absent : Nat
deriving DecidableEq, Repr

/-- The zero counters a fresh week entry starts from (Reports.tsx line 107). -/
def WeekCounts.zero : WeekCounts := { present := 0, late := 0, absent := 0 }

/-- Componentwise sum of week counters (used only to state lemmas). -/
def WeekCounts.add (a b : WeekCounts) : WeekCounts :=
  { present := a.present + b.present, late := a.late + b.late, absent := a.absent + b.absent }

/-- The per-record increment of weeklyData (Reports.tsx lines 109 to 111):
present, late and absent each bump their counter; every other status bumps
nothing (but still creates the week entry). -/
def WeekCounts.bump (w : WeekCounts) (s : Status) : WeekCounts :=
  { present := w.present + (if s = Status.present then 1 else 0)
    late := w.late + (if s = Status.late then 1 else 0)
    absent := w.absent + (if s = Status.absent then 1 else 0) }

/-- The week label of a record (Reports.tsx line 105):
Week followed by Math.ceil(dayOfMonth / 7); for a day of month at least 1,
Math.ceil(d / 7) is (d + 6) / 7 in natural division. The day of month is
read off the stored date (getDate, with the local timezone taken as UTC). -/
def weekLabel (d : CalDate) : String := "Week " ++ toString ((d.day + 6) / 7)

/-- Update of the weeks object for one record (Reports.tsx lines 106 to 111):
a missing key is appended at the end (JS objects with such string keys keep
insertion order), an existing key is updated in place. -/
def updateWeeks : List (String × WeekCounts) → String → Status → List (String × WeekCounts)
  | [], key, s => [(key, WeekCounts.bump WeekCounts.zero s)]
  | (k, w) :: rest, key, s =>
    if k = key then (k, WeekCounts.bump w s) :: rest
    else (k, w) :: updateWeeks rest key s

/-- weeklyData (Reports.tsx lines 102 to 114): fold the records through the
weeks object and list the entries in insertion order. -/
def weeklyData (attendance : List AttendanceRecord) : List (String × WeekCounts) :=
  attendance.foldl (fun weeks r => updateWeeks weeks (weekLabel r.date) r.status) []

/-- Key lookup in the weeks object (the mapping view of weeklyData). -/
def lookupWeek : List (String × WeekCounts) → String → Option WeekCounts
  | [], _ => none
  | (k, w) :: rest, key => if k = key then some w else lookupWeek rest key

/-- The week counters a set of records contributes to one key, written as
multiset counts (used to state the order-independence lemmas). -/
def weekCountsFor (attendance : List AttendanceRecord) (key : String) : WeekCounts :=
  { present := attendance.countP
      (fun r => weekLabel r.date == key && r.status == Status.present)
    late := attendance.countP
      (fun r => weekLabel r.date == key && r.status == Status.late)
    absent := attendance.countP
      (fun r => weekLabel r.date == key && r.status == Status.absent) }

/-- How many records of the list carry the given week label. -/
def weekHits (attendance : List AttendanceRecord) (key : String) : Nat :=
  attendance.countP (fun r => weekLabel r.date == key)

end Reports

namespace AdminUsers

/-- One row of the user_roles table as handleRoleChange touches it. -/
structure RoleRow where
  user_id : Nat
  role : String
deriving DecidableEq, Repr

/-- The role rows belonging to one user. -/
def rolesOf (rows : List RoleRow) (uid : Nat) : List RoleRow :=
  rows.filter (fun r => r.user_id == uid)

/-- handleRoleChange (AdminUsers.tsx lines 88 to 115): first delete every
role row of the target user, then, as a separate operation, insert the new
role row. The insert can fail (its error is checked on line 101); the delete
is not rolled back in that case. The Bool result reports insert success. -/
def handleRoleChange (rows : List RoleRow) (userId : Nat) (newRole : String)
    (insertSucceeds : Bool) : List RoleRow × Bool :=
  let afterDelete := rows.filter (fun r => r.user_id != userId)
  if insertSucceeds then (afterDelete ++ [{ user_id := userId, role := newRole }], true)
  else (afterDelete, false)

end AdminUsers

/-- An apostrophe, spliced into the literal strings of the gateway prompt. -/
def apos : String := String.singleton (Char.ofNat 39)

namespace Gateway

/-- One attendance row as the edge function formats it (raw column values,
all of them strings or nulls in the row JSON). -/
structure CtxRecord where
  date : String
  status : String
  check_in : Option String
  check_out : Option String
  notes : Option String
deriving DecidableEq, Repr

/-- One profiles row as the edge function reads it. -/
structure ProfileRow where
  full_name : String
  email : String
  department : Option String
deriving DecidableEq, Repr

/-- The record line of the attendance context (index.ts line 61):
date, status, then optional check-in, check-out and notes fragments. -/
def formatRecordLine (a : CtxRecord) : String :=
  "- " ++ a.date ++ ": " ++ a.status
    ++ (match a.check_in with | some t => ", check-in: " ++ t | none => "")
    ++ (match a.check_out with | some t => ", check-out: " ++ t | none => "")
    ++ (match a.notes with | some n => ", notes: " ++ n | none => "")

/-- Header line of the attendance context (index.ts line 60), including the
newline the template literal puts before the joined record lines. -/
def attendanceHeader : String :=
  "User" ++ apos ++ "s recent attendance records (last 100 days):\n"

/-- The placeholder used when the attendance fetch yields no array at all. -/
def noRecordsText : String := "No attendance records found."

/-- attendanceContext (index.ts lines 59 to 62). The conditional tests the
truthiness of the fetched data: null (a failed fetch) selects the
placeholder; any array, including the empty one, selects the header plus the
joined record lines. -/
def attendanceContextOf (attendance : Option (List CtxRecord)) : String :=
  match attendance with
  | some recs => attendanceHeader ++ String.intercalate "\n" (recs.map formatRecordLine)
  | none => noRecordsText

/-- userContext (index.ts lines 64 to 66). -/
def userContextOf (profile : Option ProfileRow) : String :=
  match profile with
  | some p =>
    "User: " ++ p.full_name ++ ", Email: " ++ p.email ++ ", Department: "
      ++ (match p.department with | some d => d | none => "Not specified")
  | none => "User profile not found."

/-- Leading text of the system prompt (index.ts lines 68 to 70). -/
def promptHead : String :=
  "You are an intelligent attendance assistant for AttendanceIQ. You help users understand their attendance patterns, answer questions about their records, and provide insights.\n\nCurrent date: "

/-- Trailing guidelines text of the system prompt (index.ts lines 76 to 82). -/
def promptGuidelines : String :=
  "Guidelines:\n- Be helpful and conversational\n- Provide specific insights based on the user"
    ++ apos ++ "s actual data\n- Calculate statistics like attendance rate, average check-in time, etc. when asked\n- Identify patterns like frequent late arrivals on specific days\n- Keep responses concise but informative\n- If asked about data you don"
    ++ apos ++ "t have, explain what information is available"

/-- systemPrompt (index.ts lines 68 to 82): head, current date, user context,
attendance context and guidelines, separated by blank lines. -/
def systemPromptOf (currentDate userContext attendanceContext : String) : String :=
  promptHead ++ currentDate ++ "\n\n" ++ userContext ++ "\n\n"
    ++ attendanceContext ++ "\n\n" ++ promptGuidelines

/-- The JSON error bodies the handler writes. -/
def errUnauthorized : String := "\x7b\"error\":\"Unauthorized\"\x7d"

def errInvalidToken : String := "\x7b\"error\":\"Invalid token\"\x7d"

def errNotConfigured : String := "\x7b\"error\":\"AI service not configured\"\x7d"

def errRateLimit : String := "\x7b\"error\":\"Rate limit exceeded\"\x7d"

def errPayment : String := "\x7b\"error\":\"Payment required\"\x7d"

def errGateway : String := "\x7b\"error\":\"AI gateway error\"\x7d"

/-- Body of a handler response: a JSON error body, the pass-through of the
upstream stream (recording the system prompt the request carried), or the
empty OPTIONS body. -/
inductive RespBody where
  | json (s : String)
  | stream (systemPrompt : String)
  | empty
deriving DecidableEq, Repr

/-- A handler response: HTTP status, body, and the console-error log lines
the branch emitted. -/
structure GatewayResponse where
  status : Nat
  body : RespBody
  log : List String
deriving DecidableEq, Repr

/-- The per-invocation environment of the handler: the identity lookup
result for the presented token, the two fetches, the configured key, the
current date string, and the upstream response. -/
structure GatewayEnv where
  authUser : Option Nat
  attendance : Option (List CtxRecord)
  profile : Option ProfileRow
  lovableApiKey : Option String
  currentDate : String
  upstreamStatus : Nat
  upstreamBody : String
deriving DecidableEq, Repr

/-- fetch marks a response ok exactly when its status is in 200 to 299. -/
def respOk (status : Nat) : Bool := 200 ≤ status && status < 300

/-- The serve handler of supabase/functions/attendance-ai/index.ts
(lines 9 to 131): OPTIONS short-circuit, missing Authorization header,
token check, context assembly, missing key check, then the upstream call
with its status translation; on upstream success the body is passed through
as an event stream. The catch-all wrapper (lines 132 to 141) is outside
this model: no modelled branch throws. -/
def serveHandler (method : String) (authHeader : Option String) (env : GatewayEnv) :
    GatewayResponse :=
  if method = "OPTIONS" then { status := 200, body := RespBody.empty, log := [] }
  else
    match authHeader with
    | none => { status := 401, body := RespBody.json errUnauthorized, log := [] }
    | some _ =>
      match env.authUser with
      | none => { status := 401, body := RespBody.json errInvalidToken, log := [] }
      | some _ =>
        let attendanceContext := attendanceContextOf env.attendance
        let userContext := userContextOf env.profile
        let sp := systemPromptOf env.currentDate userContext attendanceContext
        match env.lovableApiKey with
        | none => { status := 500, body := RespBody.json errNotConfigured, log := [] }
        | some _ =>
          if respOk env.upstreamStatus then
            { status := 200, body := RespBody.stream sp, log := [] }
          else if env.upstreamStatus = 429 then
            { status := 429, body := RespBody.json errRateLimit, log := [] }
          else if env.upstreamStatus = 402 then
            { status := 402, body := RespBody.json errPayment, log := [] }
          else
            { status := 500, body := RespBody.json errGateway
              log := ["AI gateway error", toString env.upstreamStatus, env.upstreamBody] }

end Gateway

namespace AIAssistant

/-- A JSON value as produced by JSON.parse. Numbers are kept as lexemes: no
theorem below inspects a numeric value, only string contents. -/
inductive Json where
  | null
  | bool (b : Bool)
  | num (lexeme : String)
  | str (s : String)
  | arr (elems : List Json)
  | obj (fields : List (String × Json))

/-- JSON insignificant whitespace (also the characters String.trim and the
JS trim remove from the line fragments below). -/
def isWs (c : Char) : Bool := c = ' ' || c = '\t' || c = '\n' || c = '\r'

def skipWs : List Char → List Char
  | [] => []
  | c :: cs => if isWs c then skipWs cs else c :: cs

def hexVal (c : Char) : Option Nat :=
  if '0' ≤ c && c ≤ '9' then some (c.toNat - 48)
  else if 'a' ≤ c && c ≤ 'f' then some (c.toNat - 87)
  else if 'A' ≤ c && c ≤ 'F' then some (c.toNat - 55)
  else none

/-- Body of a JSON string literal, after the opening quote: ordinary
characters, the standard escapes, and \uXXXX (surrogate pairing is not
re-modelled; no input below uses it). -/
def parseStringBody : List Char → List Char → Option (String × List Char)
  | [], _ => none
  | c :: rest, acc =>
    if c = '"' then some (String.mk acc.reverse, rest)
    else if c = '\\' then
      match rest with
      | [] => none
      | e :: rest2 =>
        if e = '"' then parseStringBody rest2 ('"' :: acc)
        else if e = '\\' then parseStringBody rest2 ('\\' :: acc)
        else if e = '/' then parseStringBody rest2 ('/' :: acc)
        else if e = 'n' then parseStringBody rest2 ('\n' :: acc)
        else if e = 't' then parseStringBody rest2 ('\t' :: acc)
        else if e = 'r' then parseStringBody rest2 ('\r' :: acc)
        else if e = 'b' then parseStringBody rest2 (Char.ofNat 8 :: acc)
        else if e = 'f' then parseStringBody rest2 (Char.ofNat 12 :: acc)
        else if e = 'u' then
          match rest2 with
          | h1 :: h2 :: h3 :: h4 :: rest3 =>
            match hexVal h1, hexVal h2, hexVal h3, hexVal h4 with
            | some a, some b, some c2, some d =>
              parseStringBody rest3 (Char.ofNat (((a * 16 + b) * 16 + c2) * 16 + d) :: acc)
            | _, _, _, _ => none
          | _ => none
        else none
    else parseStringBody rest (c :: acc)

def isDigit (c : Char) : Bool := '0' ≤ c && c ≤ '9'

def takeDigits : List Char → List Char × List Char
  | [] => ([], [])
  | c :: cs =>
    if isDigit c then
      let (d, r) := takeDigits cs
      (c :: d, r)
    else ([], c :: cs)

/-- A JSON number lexeme per the JSON grammar (optional minus, integer part
without a redundant leading zero, optional fraction, optional exponent). -/
def parseNumberLex (cs : List Char) : Option (List Char × List Char) :=
  let (sign, cs1) :=
    match cs with
    | '-' :: rest => (['-'], rest)
    | _ => (([] : List Char), cs)
  match cs1 with
  | [] => none
  | c :: _ =>
    if ¬ isDigit c then none
    else
      let (intPart, cs2) := takeDigits cs1
      if intPart.length > 1 && intPart.headD '0' = '0' then none
      else
        let (fracPart, cs3) :=
          match cs2 with
          | '.' :: rest =>
            let (d, r) := takeDigits rest
            if d.isEmpty then (none, cs2) else (some ('.' :: d), r)
          | _ => (none, cs2)
        match fracPart with
        | none =>
          match cs2 with
          | '.' :: _ => none
          | _ => parseExpPart (sign ++ intPart) cs2
        | some f => parseExpPart (sign ++ intPart ++ f) cs3
where
  parseExpPart (lex : List Char) (cs : List Char) : Option (List Char × List Char) :=
    match cs with
    | 'e' :: rest => parseExpTail lex ['e'] rest
    | 'E' :: rest => parseExpTail lex ['E'] rest
    | _ => some (lex, cs)
  parseExpTail (lex : List Char) (e : List Char) (cs : List Char) :
      Option (List Char × List Char) :=
    let (esign, cs1) :=
      match cs with
      | '+' :: rest => (['+'], rest)
      | '-' :: rest => (['-'], rest)
      | _ => (([] : List Char), cs)
    let (d, r) := takeDigits cs1
    if d.isEmpty then none else some (lex ++ e ++ esign ++ d, r)

mutual

/-- A JSON value (fuel-bounded recursive descent; the callers always supply
fuel exceeding the input length, which exceeds any nesting depth). -/
def parseValue : Nat → List Char → Option (Json × List Char)
  | 0, _ => none
  | fuel + 1, cs =>
    match skipWs cs with
    | 'n' :: 'u' :: 'l' :: 'l' :: rest => some (Json.null, rest)
    | 't' :: 'r' :: 'u' :: 'e' :: rest => some (Json.bool true, rest)
    | 'f' :: 'a' :: 'l' :: 's' :: 'e' :: rest => some (Json.bool false, rest)
    | '"' :: rest =>
      match parseStringBody rest [] with
      | some (s, rest2) => some (Json.str s, rest2)
      | none => none
    | '[' :: rest =>
      match skipWs rest with
      | ']' :: rest2 => some (Json.arr [], rest2)
      | _ =>
        match parseArrayItems fuel rest with
        | some (vs, rest2) => some (Json.arr vs, rest2)
        | none => none
    | c :: rest =>
      if c = Char.ofNat 123 then
        match skipWs rest with
        | c2 :: rest2 =>
          if c2 = Char.ofNat 125 then some (Json.obj [], rest2)
          else
            match parseObjectItems fuel rest with
            | some (fields, rest3) => some (Json.obj fields, rest3)
            | none => none
        | [] => none
      else
        match parseNumberLex (c :: rest) with
        | some (lex, rest2) => some (Json.num (String.mk lex), rest2)
        | none => none
    | [] => none

/-- Comma-separated array elements, up to the closing bracket. -/
def parseArrayItems : Nat → List Char → Option (List Json × List Char)
  | 0, _ => none
  | fuel + 1, cs =>
    match parseValue fuel cs with
    | none => none
    | some (v, rest) =>
      match skipWs rest with
      | ',' :: rest2 =>
        match parseArrayItems fuel rest2 with
        | some (vs, rest3) => some (v :: vs, rest3)
        | none => none
      | ']' :: rest2 => some ([v], rest2)
      | _ => none

/-- Comma-separated object members, up to the closing brace. -/
def parseObjectItems : Nat → List Char → Option (List (String × Json) × List Char)
  | 0, _ => none
  | fuel + 1, cs =>
    match skipWs cs with
    | '"' :: rest =>
      match parseStringBody rest [] with
      | none => none
      | some (key, rest2) =>
        match skipWs rest2 with
        | ':' :: rest3 =>
          match parseValue fuel rest3 with
          | none => none
          | some (v, rest4) =>
            match skipWs rest4 with
            | ',' :: rest5 =>
              match parseObjectItems fuel rest5 with
              | some (fields, rest6) => some ((key, v) :: fields, rest6)
              | none => none
            | c :: rest5 =>
              if c = Char.ofNat 125 then some ([(key, v)], rest5) else none
            | [] => none
        | _ => none
    | _ => none

end

/-- JSON.parse on a whole string: one value, possibly surrounded by
whitespace, nothing after it. -/
def jsonParse (s : String) : Option Json :=
  let cs := s.toList
  match parseValue (cs.length + 1) cs with
  | some (v, rest) => if (skipWs rest).isEmpty then some v else none
  | none => none

/-- Key access on a parsed object. JSON.parse keeps the last of duplicate
keys, so the lookup prefers the rightmost match. -/
def lookupField : List (String × Json) → String → Option Json
  | [], _ => none
  | (k, v) :: rest, key =>
    match lookupField rest key with
    | some v2 => some v2
    | none => if k = key then some v else none

def getField (j : Json) (key : String) : Option Json :=
  match j with
  | Json.obj fields => lookupField fields key
  | _ => none

/-- The extraction parsed.choices?.[0]?.delta?.content of sendMessage
(AIAssistant.sendMessage, line 290 of the concatenated source): the first
element of the choices array, its delta object, its content string; any
missing step yields undefined (none here). The `as string` cast is modelled
by requiring a string value. -/
def deltaContent (j : Json) : Option String :=
  match getField j "choices" with
  | some (Json.arr (c :: _)) =>
    match getField c "delta" with
    | some d =>
      match getField d "content" with
      | some (Json.str s) => some s
      | _ => none
    | none => none
  | _ => none

/-- State of the read loop of sendMessage: the carried text buffer, the
accumulated assistant content, and the streamDone flag. -/
structure StreamState where
  textBuffer : List Char
  content : String
  streamDone : Bool
deriving DecidableEq, Repr

/-- JS String.prototype.trim on a character list (ASCII whitespace; the
inputs below contain no exotic whitespace). -/
def trimChars (l : List Char) : List Char :=
  ((l.dropWhile isWs).reverse.dropWhile isWs).reverse

/-- line.endsWithCR handling of sendMessage (line 278): drop one trailing
carriage return. -/
def stripCR (l : List Char) : List Char :=
  match l.getLast? with
  | some c => if c = '\r' then l.dropLast else l
  | none => l

/-- Does the line start with a colon (line 279 first disjunct)? -/
def startsWithColon : List Char → Bool
  | c :: _ => c = ':'
  | [] => false

/-- One pass of the inner while loop of sendMessage (lines 273 to 306):
while the buffer holds a newline, split off the first line; skip comment and
blank lines and lines without the data marker; stop with streamDone on the
DONE payload; on a parsed event append the content delta (the truthiness
test on line 291 skips an empty string); on a parse failure push the line
back in front of the buffer with its newline and stop this read cycle.
The fuel only bounds the loop: every iteration consumes the split-off line
plus its newline from the buffer, so the initial fuel of one more than the
buffer length is never exhausted (processBufferFuel_irrel below proves any
fuel above the buffer length gives the same result). -/
def processBufferFuel : Nat → StreamState → StreamState
  | 0, s => s
  | fuel + 1, s =>
    let idx := s.textBuffer.findIdx (fun c => c == '\n')
    if idx < s.textBuffer.length then
      let line := stripCR (s.textBuffer.take idx)
      let rest := s.textBuffer.drop (idx + 1)
      if startsWithColon line || (trimChars line).isEmpty then
        processBufferFuel fuel { s with textBuffer := rest }
      else if ¬ (line.take 6 = String.toList "data: ") then
        processBufferFuel fuel { s with textBuffer := rest }
      else
        let jsonStr := trimChars (line.drop 6)
        if jsonStr = String.toList "[DONE]" then
          { s with textBuffer := rest, streamDone := true }
        else
          match jsonParse (String.mk jsonStr) with
          | some parsed =>
            let newContent :=
              match deltaContent parsed with
              | some c => if c.isEmpty then s.content else s.content ++ c
              | none => s.content
            processBufferFuel fuel { s with textBuffer := rest, content := newContent }
          | none => { s with textBuffer := line ++ '\n' :: rest }
    else s

/-- The inner while loop with always-sufficient fuel. -/
def processBuffer (s : StreamState) : StreamState :=
  processBufferFuel (s.textBuffer.length + 1) s

/-- The outer read loop of sendMessage (lines 268 to 307): while streamDone
is not set, pull the next chunk, append it to the buffer and run the inner
loop; an exhausted chunk list is the reader signalling done. Chunks are the
decoded text of the received byte chunks (no chunk below splits a
code point, so the streaming decoder is the identity on them). -/
def consumeChunks : StreamState → List (List Char) → StreamState
  | s, [] => s
  | s, c :: cs =>
    if s.streamDone then s
    else consumeChunks (processBuffer { s with textBuffer := s.textBuffer ++ c }) cs

/-- The assistant content sendMessage accumulates from a list of chunks,
starting from the empty buffer and empty message. -/
def sendMessageContent (chunks : List String) : String :=
  (consumeChunks { textBuffer := [], content := "", streamDone := false }
    (chunks.map String.toList)).content

end AIAssistant

end AttendanceHub

open AttendanceHub

/-- A minimal attendance record for concrete instances: a January 2026 day
with the given status and no timestamps. -/
def mkRec (day : Nat) (s : Status) : AttendanceRecord :=
  { id := day
    date := { year := 2026, month := 1, day := day }
    status := s
    check_in := none
    check_out := none
    notes := none }

/-- Ten records with seven present, one late, two absent. -/
def ex10 : List AttendanceRecord :=
  [mkRec 1 Status.present, mkRec 2 Status.present, mkRec 3 Status.present,
   mkRec 4 Status.present, mkRec 5 Status.present, mkRec 6 Status.present,
   mkRec 7 Status.present, mkRec 8 Status.late, mkRec 9 Status.absent,
   mkRec 10 Status.absent]

/-- Three records with one present and two absent: the exact rate is 100/3,
which one-decimal formatting cannot represent. -/
def ex3 : List AttendanceRecord :=
  [mkRec 1 Status.present, mkRec 2 Status.absent, mkRec 3 Status.absent]

/-- A record already checked out (check_out set to 3). -/
def recCheckedOut : AttendanceRecord :=
  { id := 1
    date := { year := 2026, month := 1, day := 5 }
    status := Status.present
    check_in := some 0
    check_out := some 3
    notes := none }

/-- A gateway environment with a valid identity, an empty attendance array,
no profile row, a configured key and a succeeding upstream call. -/
def envEmptyFetch : Gateway.GatewayEnv :=
  { authUser := some 1
    attendance := some []
    profile := none
    lovableApiKey := some "k"
    currentDate := "2026-10-11"
    upstreamStatus := 200
    upstreamBody := "" }

/-- A gateway environment identical to envEmptyFetch except that the
upstream call fails with 503. -/
def envUpstream503 : Gateway.GatewayEnv :=
  { envEmptyFetch with upstreamStatus := 503, upstreamBody := "boom" }

/-- C1: a check-in record created with hour of day strictly before 9 has
status present, and with hour 9 or later has status late. -/
theorem C1_checkin_status (id : Nat) (d : CalDate) (hour : Nat) (nowMs : Int)
    (notes : Option String) :
    (hour < 9 → (Attendance.checkInRecord id d hour nowMs notes).status = Status.present)
    ∧ (9 ≤ hour → (Attendance.checkInRecord id d hour nowMs notes).status = Status.late) := by
  constructor <;> intro h <;>
    simp [Attendance.checkInRecord, Attendance.checkInStatus, Attendance.LATE_CUTOFF_HOUR] <;>
    omega

/-- C1 witness: at hour 8 the created record is present, at hour 9 late. -/
theorem C1_checkin_status_witness :
    (Attendance.checkInRecord 1 { year := 2026, month := 1, day := 5 } 8 0 none).status
      = Status.present
    ∧ (Attendance.checkInRecord 1 { year := 2026, month := 1, day := 5 } 9 0 none).status
      = Status.late :=
  ⟨(C1_checkin_status 1 { year := 2026, month := 1, day := 5 } 8 0 none).1 (by decide),
   (C1_checkin_status 1 { year := 2026, month := 1, day := 5 } 9 0 none).2 (by decide)⟩

/-- C2 counterexample: handleCheckOut on a record whose check_out is already
set (value 3) overwrites it with the new time (5) instead of failing, and
handleCheckOut with no record for today is a silent no-op, not an error. -/
theorem C2_counterexample :
    recCheckedOut.check_out = some 3
    ∧ Attendance.handleCheckOut (some recCheckedOut) 5 none
        = Attendance.CheckOutResult.updated
            { recCheckedOut with check_out := some 5, notes := none }
    ∧ Attendance.handleCheckOut none 5 none = Attendance.CheckOutResult.noOp := by
  refine ⟨rfl, rfl, rfl⟩

/-- C2 amended: handleCheckOut with no record for today returns without
performing any operation and without surfacing an error, and on an existing
record it unconditionally sets check_out to the new time and replaces the
notes, even when check_out was already set. -/
theorem C2_checkout_behavior (r : AttendanceRecord) (nowMs : Int) (n : Option String) :
    Attendance.handleCheckOut none nowMs n = Attendance.CheckOutResult.noOp
    ∧ Attendance.handleCheckOut (some r) nowMs n
        = Attendance.CheckOutResult.updated { r with check_out := some nowMs, notes := n } :=
  ⟨rfl, rfl⟩

/-- C7: calculateWorkHours is none when either timestamp is absent; with
both present and check_out at or after check_in it is the millisecond delta
floor-divided into whole hours and remaining whole minutes; 09:00:00 to
17:30:00 gives 8 hours 30 minutes. -/
theorem C7_work_duration (ci co : Int) (o : Option Int) :
    Attendance.calculateWorkHours none o = none
    ∧ Attendance.calculateWorkHours o none = none
    ∧ (ci ≤ co →
        Attendance.calculateWorkHours (some ci) (some co)
          = some ((co - ci) / 3600000, ((co - ci) % 3600000) / 60000))
    ∧ Attendance.calculateWorkHours (some 32400000) (some 63000000) = some (8, 30) := by
  refine ⟨by cases o <;> rfl, by cases o <;> rfl, fun h => ?_, by decide⟩
  have h0 : (0 : Int) ≤ co - ci := by omega
  simp only [Attendance.calculateWorkHours]
  rw [Int.fdiv_eq_ediv _ (by norm_num), Int.tmod_eq_emod h0 (by norm_num),
    Int.fdiv_eq_ediv _ (by norm_num)]

/-- C7 witness: the precondition holds at 09:00:00 and 17:30:00 (in
milliseconds since midnight) and the result is 8 hours 30 minutes. -/
theorem C7_work_duration_witness :
    Attendance.calculateWorkHours (some 32400000) (some 63000000)
      = some ((63000000 - 32400000) / 3600000, ((63000000 - 32400000) % 3600000) / 60000) :=
  (C7_work_duration 32400000 63000000 none).2.2.1 (by decide)

/-- C10: after handleRoleChange whose insert step fails, the target user has
zero role rows; the result reports failure; and when the user had role rows
before, the store is changed (the delete is not rolled back). -/
theorem C10_role_change (rows : List AdminUsers.RoleRow) (uid : Nat) (newRole : String) :
    AdminUsers.rolesOf (AdminUsers.handleRoleChange rows uid newRole false).1 uid = []
    ∧ (AdminUsers.handleRoleChange rows uid newRole false).2 = false
    ∧ (AdminUsers.rolesOf rows uid ≠ [] →
        (AdminUsers.handleRoleChange rows uid newRole false).1 ≠ rows) := by
  refine ⟨?_, rfl, fun hne => ?_⟩
  · simp only [AdminUsers.rolesOf, AdminUsers.handleRoleChange, if_neg Bool.false_ne_true,
      List.filter_filter]
    refine List.filter_eq_nil_iff.mpr fun r _ => ?_
    cases h : r.user_id == uid <;> simp [bne, h]
  · obtain ⟨r, hmem⟩ := List.exists_mem_of_ne_nil _ hne
    have hr : r ∈ rows ∧ (r.user_id == uid) = true := List.mem_filter.mp hmem
    have hlt : (rows.filter (fun r => r.user_id != uid)).length < rows.length :=
      List.length_filter_lt_length_iff_exists.mpr ⟨r, hr.1, by simp [bne, hr.2]⟩
    simp only [AdminUsers.handleRoleChange, if_neg Bool.false_ne_true]
    intro heq
    have := congrArg List.length heq
    omega

/-- C5: with a presented credential, a resolved identity and a configured
key, upstream 429 maps to a 429 rate-limit body, upstream 402 maps to a 402
payment-required body, and any other non-ok upstream status maps to a
generic 500 body whose text is fixed (the upstream body only appears in the
log). -/
theorem C5_status_translation (ah : String) (env : Gateway.GatewayEnv) (uid : Nat)
    (key : String) (hu : env.authUser = some uid) (hk : env.lovableApiKey = some key) :
    (env.upstreamStatus = 429 →
      Gateway.serveHandler "POST" (some ah) env
        = { status := 429, body := Gateway.RespBody.json Gateway.errRateLimit, log := [] })
    ∧ (env.upstreamStatus = 402 →
      Gateway.serveHandler "POST" (some ah) env
        = { status := 402, body := Gateway.RespBody.json Gateway.errPayment, log := [] })
    ∧ (Gateway.respOk env.upstreamStatus = false → env.upstreamStatus ≠ 429 →
        env.upstreamStatus ≠ 402 →
      Gateway.serveHandler "POST" (some ah) env
        = { status := 500, body := Gateway.RespBody.json Gateway.errGateway
            log := ["AI gateway error", toString env.upstreamStatus, env.upstreamBody] }) := by
  refine ⟨fun h429 => ?_, fun h402 => ?_, fun hok h1 h2 => ?_⟩
  · simp [Gateway.serveHandler, hu, hk, h429, show Gateway.respOk 429 = false from by decide]
  · simp [Gateway.serveHandler, hu, hk, h402, show Gateway.respOk 402 = false from by decide]
  · simp [Gateway.serveHandler, hu, hk, hok, h1, h2]

/-- C5 witness: a concrete environment whose upstream answers 503 yields the
generic 500 gateway error with the upstream body only in the log. -/
theorem C5_status_translation_witness :
    Gateway.serveHandler "POST" (some "Bearer t") envUpstream503
      = { status := 500, body := Gateway.RespBody.json Gateway.errGateway
          log := ["AI gateway error", toString (503 : Nat), "boom"] } :=
  (C5_status_translation "Bearer t" envUpstream503 1 "k" rfl rfl).2.2
    (by decide) (by decide) (by decide)

/-- C3 counterexample: with an empty attendance array the context text is
the header with zero record lines, not the no-records placeholder, and the
handler passes exactly that context into the streamed 200 response. -/
theorem C3_counterexample :
    Gateway.attendanceContextOf (some []) ≠ Gateway.noRecordsText
    ∧ Gateway.serveHandler "POST" (some "Bearer t") envEmptyFetch
        = { status := 200
            body := Gateway.RespBody.stream
              (Gateway.systemPromptOf "2026-10-11" (Gateway.userContextOf none)
                (Gateway.attendanceContextOf (some [])))
            log := [] } :=
  ⟨by decide, by decide⟩

/-- C3 amended: an authenticated request whose attendance fetch yields the
empty array is still answered 200 with a streamed response; its context text
is the attendance header with zero record lines; the no-records placeholder
appears only when the fetch yields no array at all (a null result). -/
theorem C3_empty_fetch (ah : String) (env : Gateway.GatewayEnv) (uid : Nat) (key : String)
    (hu : env.authUser = some uid) (hk : env.lovableApiKey = some key)
    (ha : env.attendance = some []) (hok : Gateway.respOk env.upstreamStatus = true) :
    Gateway.serveHandler "POST" (some ah) env
      = { status := 200
          body := Gateway.RespBody.stream
            (Gateway.systemPromptOf env.currentDate (Gateway.userContextOf env.profile)
              Gateway.attendanceHeader)
          log := [] }
    ∧ Gateway.attendanceContextOf (some []) = Gateway.attendanceHeader
    ∧ Gateway.attendanceContextOf none = Gateway.noRecordsText := by
  have hctx : Gateway.attendanceContextOf (some []) = Gateway.attendanceHeader := by decide
  refine ⟨?_, hctx, rfl⟩
  simp [Gateway.serveHandler, hu, hk, ha, hok, hctx]

/-- C3 witness: the concrete empty-fetch environment is answered 200 with a
streamed response whose context is the bare header. -/
theorem C3_empty_fetch_witness :
    Gateway.serveHandler "POST" (some "Bearer t") envEmptyFetch
      = { status := 200
          body := Gateway.RespBody.stream
            (Gateway.systemPromptOf envEmptyFetch.currentDate
              (Gateway.userContextOf envEmptyFetch.profile) Gateway.attendanceHeader)
          log := [] } :=
  (C3_empty_fetch "Bearer t" envEmptyFetch 1 "k" rfl rfl rfl (by decide)).1

/-- The Dashboard attendance rate written through countStatus: exactly
(present + late) / total * 100, and 0 on an empty input. -/
theorem dashboardRate_eq (recs : List AttendanceRecord) :
    Dashboard.attendanceRate recs
      = (if recs.length = 0 then 0 else
          ((Reports.countStatus recs Status.present : ℚ)
            + (Reports.countStatus recs Status.late : ℚ)) / (recs.length : ℚ) * 100) := by
  simp only [Dashboard.attendanceRate, Reports.countStatus]
  rcases Nat.eq_zero_or_pos recs.length with h | h
  · simp [h]
  · rw [if_pos h, if_neg (Nat.pos_iff_ne_zero.mp h)]

/-- The Reports attendance rate is the Dashboard rate passed through
one-decimal formatting. -/
theorem reportsRate_eq (recs : List AttendanceRecord) :
    Reports.attendanceRate recs = Reports.toFixed1 (Dashboard.attendanceRate recs) := by
  simp only [Reports.attendanceRate, Dashboard.attendanceRate, Reports.countStatus]
  rcases Nat.eq_zero_or_pos recs.length with h | h
  · rw [if_neg (by omega), if_neg (by omega)]
    norm_num [Reports.toFixed1]
  · rw [if_pos h, if_pos h]

/-- C6 counterexample: on three records with one present and two absent the
Reports attendanceRate is 33.3 (the toFixed(1) value), not the exact
(present + late) / total * 100 = 100/3. -/
theorem C6_counterexample :
    Reports.attendanceRate ex3
      ≠ ((Reports.countStatus ex3 Status.present : ℚ)
          + (Reports.countStatus ex3 Status.late : ℚ)) / (ex3.length : ℚ) * 100 := by
  rw [reportsRate_eq, dashboardRate_eq,
    show Reports.countStatus ex3 Status.present = 1 from by decide,
    show Reports.countStatus ex3 Status.late = 0 from by decide,
    show ex3.length = 3 from by decide]
  norm_num [Reports.toFixed1, Int.floor_eq_iff]

/-- C6 amended: the Dashboard attendanceRate equals exactly
(present + late) / total * 100 with 0 on empty input; the Reports
attendanceRate equals that value formatted to one decimal (toFixed(1));
both are 0 on the empty set and both give 80.0 on ten records with seven
present, one late and two absent. -/
theorem C6_attendance_rate (recs : List AttendanceRecord) :
    (Dashboard.attendanceRate recs
      = (if recs.length = 0 then 0 else
          ((Reports.countStatus recs Status.present : ℚ)
            + (Reports.countStatus recs Status.late : ℚ)) / (recs.length : ℚ) * 100))
    ∧ Reports.attendanceRate recs = Reports.toFixed1 (Dashboard.attendanceRate recs)
    ∧ Dashboard.attendanceRate [] = 0
    ∧ Reports.attendanceRate [] = 0
    ∧ Dashboard.attendanceRate ex10 = 80
    ∧ Reports.attendanceRate ex10 = 80 := by
  have hd : Dashboard.attendanceRate ex10 = 80 := by
    rw [dashboardRate_eq,
      show Reports.countStatus ex10 Status.present = 7 from by decide,
      show Reports.countStatus ex10 Status.late = 1 from by decide,
      show ex10.length = 10 from by decide]
    norm_num
  refine ⟨dashboardRate_eq recs, reportsRate_eq recs, by norm_num [Dashboard.attendanceRate],
    ?_, hd, ?_⟩
  · rw [reportsRate_eq]
    norm_num [Dashboard.attendanceRate, Reports.toFixed1]
  · rw [reportsRate_eq, hd]
    norm_num [Reports.toFixed1, Int.floor_eq_iff]

/-- Key lookup after one updateWeeks step: the updated key is bumped (from
the zero counters when absent), every other key is untouched. -/
theorem lookupWeek_updateWeeks (ws : List (String × Reports.WeekCounts)) (k key : String)
    (s : Status) :
    Reports.lookupWeek (Reports.updateWeeks ws k s) key
      = if k = key
        then some (Reports.WeekCounts.bump
          ((Reports.lookupWeek ws key).getD Reports.WeekCounts.zero) s)
        else Reports.lookupWeek ws key := by
  induction ws with
  | nil => by_cases hk : k = key <;> simp [Reports.updateWeeks, Reports.lookupWeek, hk]
  | cons hd tl ih =>
    obtain ⟨k0, w⟩ := hd
    by_cases h0 : k0 = k
    · subst h0
      by_cases hk : k0 = key
      · subst hk
        simp [Reports.updateWeeks, Reports.lookupWeek]
      · simp [Reports.updateWeeks, Reports.lookupWeek, hk]
    · by_cases hk : k0 = key
      · subst hk
        have hkk : ¬ (k = k0) := fun hh => h0 hh.symm
        simp [Reports.updateWeeks, Reports.lookupWeek, h0, hkk]
      · simp [Reports.updateWeeks, Reports.lookupWeek, h0, hk, ih]

/-- Key lookup through the weeklyData fold, for an arbitrary accumulator:
the result adds the multiset counts the records contribute to the key on
top of whatever the accumulator already held. -/
theorem lookupWeek_foldl (l : List AttendanceRecord) (acc : List (String × Reports.WeekCounts))
    (key : String) :
    Reports.lookupWeek
        (l.foldl (fun weeks r => Reports.updateWeeks weeks (Reports.weekLabel r.date) r.status) acc)
        key
      = match Reports.lookupWeek acc key with
        | some w => some (Reports.WeekCounts.add w (Reports.weekCountsFor l key))
        | none =>
          if 0 < Reports.weekHits l key then some (Reports.weekCountsFor l key) else none := by
  induction l generalizing acc with
  | nil =>
    cases h : Reports.lookupWeek acc key <;>
      simp [h, Reports.weekCountsFor, Reports.weekHits, Reports.WeekCounts.add]
  | cons r t ih =>
    simp only [List.foldl_cons]
    rw [ih, lookupWeek_updateWeeks]
    by_cases hk : Reports.weekLabel r.date = key
    · rw [if_pos hk]
      have hbeq : (Reports.weekLabel r.date == key) = true := beq_iff_eq.mpr hk
      cases h : Reports.lookupWeek acc key with
      | some w =>
        simp only [h, Option.getD_some]
        rcases hs : r.status <;>
          simp [Reports.WeekCounts.add, Reports.WeekCounts.bump, Reports.weekCountsFor,
            List.countP_cons, hbeq, hs, Reports.WeekCounts.mk.injEq] <;> omega
      | none =>
        simp only [h, Option.getD_none]
        have hhit : 0 < Reports.weekHits (r :: t) key := by
          simp [Reports.weekHits, List.countP_cons, hbeq]
        rw [if_pos hhit]
        rcases hs : r.status <;>
          simp [Reports.WeekCounts.add, Reports.WeekCounts.bump, Reports.WeekCounts.zero,
            Reports.weekCountsFor, List.countP_cons, hbeq, hs, Reports.WeekCounts.mk.injEq] <;>
          omega
    · rw [if_neg hk]
      have hbeq : (Reports.weekLabel r.date == key) = false := by
        simp [hk]
      cases h : Reports.lookupWeek acc key <;>
        simp [h, Reports.weekCountsFor, Reports.weekHits, List.countP_cons, hbeq]

/-- Canonical form of the weeklyData mapping: a key maps to the multiset
counts of its records exactly when some record carries the key. -/
theorem lookupWeek_weeklyData (l : List AttendanceRecord) (key : String) :
    Reports.lookupWeek (Reports.weeklyData l) key
      = if 0 < Reports.weekHits l key then some (Reports.weekCountsFor l key) else none := by
  have := lookupWeek_foldl l [] key
  simpa [Reports.weeklyData, Reports.lookupWeek] using this

/-- countStatus is invariant under permutation of the records. -/
theorem countStatus_perm {l l' : List AttendanceRecord} (hp : l.Perm l') (s : Status) :
    Reports.countStatus l s = Reports.countStatus l' s := by
  simp only [Reports.countStatus, ← List.countP_eq_length_filter]
  exact hp.countP_eq _

/-- C8 counterexample: two records in different weeks produce the weekly
list in first-occurrence order, so swapping the input records changes the
weeklyData list even though the inputs are permutations of each other. -/
theorem C8_counterexample :
    List.Perm [mkRec 1 Status.present, mkRec 8 Status.present]
      [mkRec 8 Status.present, mkRec 1 Status.present]
    ∧ Reports.weeklyData [mkRec 1 Status.present, mkRec 8 Status.present]
        ≠ Reports.weeklyData [mkRec 8 Status.present, mkRec 1 Status.present] :=
  ⟨by decide, by decide⟩

/-- C8 amended: statusCounts and both attendance rates are pure functions of
the input multiset (permutation invariant), the weeklyData mapping from week
label to counters is permutation invariant, and every aggregation tolerates
the empty input; only the order of the entries in the weeklyData list
depends on the input order (first occurrence of each week label). -/
theorem C8_aggregation_perm (l l' : List AttendanceRecord) (hp : l.Perm l') :
    (∀ s, Reports.countStatus l s = Reports.countStatus l' s)
    ∧ Dashboard.attendanceRate l = Dashboard.attendanceRate l'
    ∧ Reports.attendanceRate l = Reports.attendanceRate l'
    ∧ (∀ key, Reports.lookupWeek (Reports.weeklyData l) key
        = Reports.lookupWeek (Reports.weeklyData l') key)
    ∧ (∀ s, Reports.countStatus [] s = 0)
    ∧ Dashboard.attendanceRate [] = 0
    ∧ Reports.attendanceRate [] = 0
    ∧ Reports.weeklyData [] = [] := by
  have hlen : l.length = l'.length := hp.length_eq
  have hcnt : ∀ s, Reports.countStatus l s = Reports.countStatus l' s :=
    fun s => countStatus_perm hp s
  have hdr : Dashboard.attendanceRate l = Dashboard.attendanceRate l' := by
    rw [dashboardRate_eq, dashboardRate_eq, hlen, hcnt, hcnt]
  refine ⟨hcnt, hdr, by rw [reportsRate_eq, reportsRate_eq, hdr], ?_,
    fun s => rfl, by norm_num [Dashboard.attendanceRate],
    by rw [reportsRate_eq]; norm_num [Dashboard.attendanceRate, Reports.toFixed1], rfl⟩
  intro key
  rw [lookupWeek_weeklyData, lookupWeek_weeklyData]
  have h1 : Reports.weekHits l key = Reports.weekHits l' key := hp.countP_eq _
  have h2 : Reports.weekCountsFor l key = Reports.weekCountsFor l' key := by
    simp [Reports.weekCountsFor, hp.countP_eq]
  rw [h1, h2]

/-- C8 witness: a concrete swapped pair of records; the late count and the
Week 2 counters agree between the two orders. -/
theorem C8_aggregation_perm_witness :
    Reports.countStatus [mkRec 1 Status.present, mkRec 8 Status.late] Status.late
      = Reports.countStatus [mkRec 8 Status.late, mkRec 1 Status.present] Status.late
    ∧ Reports.lookupWeek
        (Reports.weeklyData [mkRec 1 Status.present, mkRec 8 Status.late]) "Week 2"
      = Reports.lookupWeek
        (Reports.weeklyData [mkRec 8 Status.late, mkRec 1 Status.present]) "Week 2" :=
  ⟨(C8_aggregation_perm [mkRec 1 Status.present, mkRec 8 Status.late]
      [mkRec 8 Status.late, mkRec 1 Status.present] (by decide)).1 Status.late,
   (C8_aggregation_perm [mkRec 1 Status.present, mkRec 8 Status.late]
      [mkRec 8 Status.late, mkRec 1 Status.present] (by decide)).2.2.2.1 "Week 2"⟩

/-- C10 witness: a store holding one role row for user 7; after a failed
insert the user has zero role rows and the store differs from before. -/
theorem C10_role_change_witness :
    AdminUsers.rolesOf
        (AdminUsers.handleRoleChange [{ user_id := 7, role := "user" }] 7 "admin" false).1 7 = []
    ∧ (AdminUsers.handleRoleChange [{ user_id := 7, role := "user" }] 7 "admin" false).1
        ≠ [{ user_id := 7, role := "user" }] :=
  ⟨(C10_role_change [{ user_id := 7, role := "user" }] 7 "admin").1,
   (C10_role_change [{ user_id := 7, role := "user" }] 7 "admin").2.2 (by decide)⟩

/-- The first newline of a buffer that starts with a newline-free line
followed by a newline is found exactly at the length of that line. -/
theorem findIdx_newline (line rest : List Char) (h : '\n' ∉ line) :
    (line ++ '\n' :: rest).findIdx (fun c => c == '\n') = line.length := by
  induction line with
  | nil => simp [List.findIdx_cons]
  | cons c cs ih =>
    have hc : (c == '\n') = false := by
      simp only [beq_eq_false_iff_ne, ne_eq]
      intro he
      exact h (he ▸ List.mem_cons_self c cs)
    have h2 : '\n' ∉ cs := fun hm => h (List.mem_cons_of_mem _ hm)
    simp [List.findIdx_cons, hc, ih h2]

/-- Dropping the first line and its newline leaves the tail of the buffer. -/
theorem drop_newline (line rest : List Char) :
    (line ++ '\n' :: rest).drop (line.length + 1) = rest := by
  have he : line ++ '\n' :: rest = (line ++ ['\n']) ++ rest := by simp
  rw [he, List.drop_left' (by simp)]

/-- Any two fuels above the buffer length give the same inner-loop result:
each iteration consumes at least the newline of the split-off line, so the
fuel of processBuffer is never exhausted and the fuel is a proof artifact,
not part of the modelled behavior. -/
theorem processBufferFuel_irrel (f1 : Nat) : ∀ (f2 : Nat) (s : AIAssistant.StreamState),
    s.textBuffer.length < f1 → s.textBuffer.length < f2 →
    AIAssistant.processBufferFuel f1 s = AIAssistant.processBufferFuel f2 s := by
  induction f1 using Nat.strong_induction_on with
  | _ f1 ih =>
    intro f2 s hf1 hf2
    cases f1 with
    | zero => omega
    | succ a =>
      cases f2 with
      | zero => omega
      | succ b =>
        rw [AIAssistant.processBufferFuel.eq_2, AIAssistant.processBufferFuel.eq_2]
        by_cases hidx : (s.textBuffer.findIdx fun c => c == '\n') < s.textBuffer.length
        · rw [if_pos hidx, if_pos hidx]
          have hlen1 :
              (s.textBuffer.drop ((s.textBuffer.findIdx fun c => c == '\n') + 1)).length < a := by
            simp only [List.length_drop]
            omega
          have hlen2 :
              (s.textBuffer.drop ((s.textBuffer.findIdx fun c => c == '\n') + 1)).length < b := by
            simp only [List.length_drop]
            omega
          dsimp only []
          split
          · exact ih a (Nat.lt_succ_self a) b _ hlen1 hlen2
          · split
            · exact ih a (Nat.lt_succ_self a) b _ hlen1 hlen2
            · split
              · rfl
              · split
                · exact ih a (Nat.lt_succ_self a) b _ hlen1 hlen2
                · rfl
        · rw [if_neg hidx, if_neg hidx]

/-- One inner-loop pass on a buffer whose first line is the DONE terminator:
the loop stops at that line with streamDone set, the accumulated content
untouched, and the remainder of the buffer (whatever follows the terminator
line) left unprocessed. -/
theorem hstep_done (content : String) (rest : List Char) :
    AIAssistant.processBuffer
        { textBuffer := String.toList "data: [DONE]" ++ '\n' :: rest
          content := content, streamDone := false }
      = { textBuffer := rest, content := content, streamDone := true } := by
  have h1 : '\n' ∉ String.toList "data: [DONE]" := by decide
  simp only [AIAssistant.processBuffer]
  rw [AIAssistant.processBufferFuel.eq_2]
  rw [findIdx_newline _ _ h1]
  rw [if_pos (by simp [List.length_append] :
    (String.toList "data: [DONE]").length < (String.toList "data: [DONE]" ++ '\n' :: rest).length)]
  rw [List.take_left, drop_newline]
  rfl

/-- A complete data line whose payload is not the terminator and does not
parse as JSON is pushed back in front of the buffer with its newline and the
read cycle stops: buffer, content and done flag are all unchanged. -/
theorem pushback_general (line rest : List Char) (content : String) (done : Bool)
    (h1 : '\n' ∉ line)
    (h2 : AIAssistant.stripCR line = line)
    (h3 : AIAssistant.startsWithColon line = false)
    (h4 : (AIAssistant.trimChars line).isEmpty = false)
    (h5 : line.take 6 = String.toList "data: ")
    (h6 : AIAssistant.trimChars (line.drop 6) ≠ String.toList "[DONE]")
    (h7 : (AIAssistant.jsonParse (String.mk (AIAssistant.trimChars (line.drop 6)))).isNone = true) :
    AIAssistant.processBuffer
        { textBuffer := line ++ '\n' :: rest, content := content, streamDone := done }
      = { textBuffer := line ++ '\n' :: rest, content := content, streamDone := done } := by
  simp only [AIAssistant.processBuffer]
  rw [AIAssistant.processBufferFuel.eq_2]
  rw [findIdx_newline _ _ h1]
  rw [if_pos (by simp [List.length_append] : line.length < (line ++ '\n' :: rest).length)]
  rw [List.take_left, drop_newline, h2]
  rw [if_neg (by simp [h3, h4])]
  rw [if_neg (by simp [h5])]
  rw [if_neg h6]
  rw [Option.isNone_iff_eq_none.mp h7]

/-- C9: once the inner loop meets a data line carrying the DONE terminator,
consumption ends there: no content is appended from anything after the
terminator, whether it sits in the same buffered chunk (the leftover buffer)
or in later reads (the remaining chunks); an exhausted stream (empty chunk
list) also ends consumption; concretely, a chunk holding an event after the
terminator plus a whole later chunk of events contribute nothing. -/
theorem C9_done_terminates :
    (∀ (content : String) (rest : List Char) (chunks : List (List Char)),
      AIAssistant.consumeChunks
          (AIAssistant.processBuffer
            { textBuffer := String.toList "data: [DONE]" ++ '\n' :: rest
              content := content, streamDone := false }) chunks
        = { textBuffer := rest, content := content, streamDone := true })
    ∧ (∀ s : AIAssistant.StreamState, AIAssistant.consumeChunks s [] = s)
    ∧ AIAssistant.sendMessageContent
        ["data: [DONE]\ndata: \x7b\"choices\":[\x7b\"delta\":\x7b\"content\":\"XX\"\x7d\x7d]\x7d\n",
         "data: \x7b\"choices\":[\x7b\"delta\":\x7b\"content\":\"YY\"\x7d\x7d]\x7d\n"] = "" := by
  refine ⟨?_, fun s => rfl, by decide⟩
  intro content rest chunks
  rw [hstep_done]
  cases chunks with
  | nil => rfl
  | cons c cs => simp [AIAssistant.consumeChunks]

/-- C4: the consumer parses only complete newline-terminated lines; a data
line whose JSON does not parse is pushed back onto the buffer with its
newline and the read cycle stops, leaving the state unchanged until more
bytes arrive; and the data line split across two chunks (Hel then lo)
reassembles to exactly the content Hello with no partial token emitted. -/
theorem C4_stream_reassembly :
    (∀ (line rest : List Char) (content : String) (done : Bool),
      '\n' ∉ line →
      AIAssistant.stripCR line = line →
      AIAssistant.startsWithColon line = false →
      (AIAssistant.trimChars line).isEmpty = false →
      line.take 6 = String.toList "data: " →
      AIAssistant.trimChars (line.drop 6) ≠ String.toList "[DONE]" →
      (AIAssistant.jsonParse (String.mk (AIAssistant.trimChars (line.drop 6)))).isNone = true →
      AIAssistant.processBuffer
          { textBuffer := line ++ '\n' :: rest, content := content, streamDone := done }
        = { textBuffer := line ++ '\n' :: rest, content := content, streamDone := done })
    ∧ AIAssistant.sendMessageContent
        ["data: \x7b\"choices\":[\x7b\"delta\":\x7b\"content\":\"Hel",
         "lo\"\x7d\x7d]\x7d\n"] = "Hello" :=
  ⟨pushback_general, by decide⟩

/-- C4 witness: the truncated line data: (open brace)"choices":[(open
brace)"delta": fails to parse and is pushed back unchanged with the state
untouched. -/
theorem C4_stream_reassembly_witness :
    AIAssistant.processBuffer
        { textBuffer := String.toList "data: \x7b\"choices\":[\x7b\"delta\":" ++ '\n' :: []
          content := "", streamDone := false }
      = { textBuffer := String.toList "data: \x7b\"choices\":[\x7b\"delta\":" ++ '\n' :: []
          content := "", streamDone := false } :=
  C4_stream_reassembly.1 _ [] "" false (by decide) (by decide) (by decide) (by decide)
    (by decide) (by decide) (by decide)
